import Mathlib

/-!
Shallow embedding of `src/rss_reader/summarizer.py` (the `Summarizer` class)
and proofs about it.

Modelling conventions:
- Python exceptions are modelled by `Except PyErr`.
- The mutable field `self._client` is modelled by explicit state passing:
  each method returns its result together with the updated `Summarizer` state
  and a trace of observable events (network calls, warnings, error logs,
  progress lines printed to stdout).
- The two provider SDK calls are modelled by an oracle
  `Oracle : Request → Except PyErr String` supplied by the environment: the
  request records which client object, model, `max_tokens` and prompt were
  dispatched; the oracle's answer is the extracted response text, or any
  exception the call (or the response-field extraction) raises.
- Python `str.format` as used here (keyword arguments `title`, `content`) is
  modelled by `pyFormat`, covering the plain-field fragment actually exercised:
  `\x7btitle\x7d` and `\x7bcontent\x7d` substitute verbatim, doubled braces
  escape, any other field name raises `KeyError`, an unmatched brace raises
  `ValueError`.  Substituted values are not re-scanned, as in Python.
-/

/-- Python exception values, as far as this module distinguishes them. -/
inductive PyErr where
  | keyError (field : String)
  | valueError (msg : String)
  | exc (msg : String)
deriving DecidableEq, Repr

/-- The string Python would render for the exception (its `str()`). -/
def PyErr.msg : PyErr → String
  | .keyError f => "'" ++ f ++ "'"
  | .valueError m => m
  | .exc m => m

/-- Modelled from the spec: `Article` is produced by the fetch pipeline
(`rss_reader/fetcher.py`, not part of the given sources); per the spec it has
a `title` (text) and a `content` (text, possibly empty) and is consumed
read-only here. -/
structure Article where
  title : String
  content : String
deriving DecidableEq, Repr

/-- The configuration dict passed to `Summarizer.__init__`; `none` models an
absent key (Python `dict.get` returning `None`). -/
structure Config where
  provider : Option String
  model : Option String
  api_key : Option String
  openai_api_key : Option String
  openai_api_base : Option String
  openai_model : Option String
  summary_prompt : Option String
deriving DecidableEq, Repr

/-- A provider SDK client object, recording the constructor and the arguments
it was built from (`anthropic.Anthropic(api_key=...)` resp.
`openai.OpenAI(api_key=..., base_url=...)`). -/
inductive Client where
  | anthropicClient (api_key : Option String)
  | openaiClient (api_key : Option String) (base_url : String)
deriving DecidableEq, Repr

/-- One network request as dispatched by `_summarize_with_claude` /
`_summarize_with_openai`: the client it goes through, the model id,
`max_tokens`, and the single user-role message content. -/
structure Request where
  client : Client
  model : String
  max_tokens : Nat
  prompt : String
deriving DecidableEq, Repr

/-- Observable side effects of the module. -/
inductive Event where
  | netCall (req : Request)
  | warn (msg : String)
  | errLog (msg : String)
  | progress (msg : String)
deriving DecidableEq, Repr

/-- The environment's answer to each dispatched request: the extracted
response text, or the exception the call raises. -/
def Oracle : Type := Request → Except PyErr String

/-- Scanner state for the `str.format` model: in literal text, just after
`\x7b`, just after `\x7d`, or inside a replacement field with the name read
so far. -/
inductive FmtState where
  | normal
  | sawL
  | sawR
  | field (acc : List Char)
deriving DecidableEq, Repr

/-- Applies a function under `Except.ok`, keeping errors. -/
def mapE {α β : Type} (f : α → β) : Except PyErr α → Except PyErr β
  | .ok a => .ok (f a)
  | .error e => .error e

/-- Keyword-argument lookup of `str.format(title=..., content=...)`: any
other field name raises `KeyError` (shown for the fields this call site
passes). -/
def lookupField (title content : String) (name : String) : Except PyErr String :=
  if name = "title" then .ok title
  else if name = "content" then .ok content
  else .error (.keyError name)

/-- One pass of the `str.format` scanner over the template characters. -/
def fmtRun (title content : String) : FmtState → List Char → Except PyErr (List Char)
  | .normal, [] => .ok []
  | .normal, c :: rest =>
      if c = '{' then fmtRun title content .sawL rest
      else if c = '}' then fmtRun title content .sawR rest
      else mapE (c :: ·) (fmtRun title content .normal rest)
  | .sawL, [] => .error (.valueError "Single '\x7b' encountered in format string")
  | .sawL, c :: rest =>
      if c = '{' then mapE ('{' :: ·) (fmtRun title content .normal rest)
      else if c = '}' then
        match lookupField title content "" with
        | .ok v => mapE (v.data ++ ·) (fmtRun title content .normal rest)
        | .error e => .error e
      else fmtRun title content (.field [c]) rest
  | .sawR, [] => .error (.valueError "Single '\x7d' encountered in format string")
  | .sawR, c :: rest =>
      if c = '}' then mapE ('}' :: ·) (fmtRun title content .normal rest)
      else .error (.valueError "Single '\x7d' encountered in format string")
  | .field _, [] => .error (.valueError "Single '\x7b' encountered in format string")
  | .field acc, c :: rest =>
      if c = '}' then
        match lookupField title content (String.mk acc) with
        | .ok v => mapE (v.data ++ ·) (fmtRun title content .normal rest)
        | .error e => .error e
      else fmtRun title content (.field (acc ++ [c])) rest

/-- `template.format(title=title, content=content)` in Python. -/
def pyFormat (template title content : String) : Except PyErr String :=
  mapE String.mk (fmtRun title content .normal template.data)

/-- Whether an `Except` result is a success. -/
def isOkE {α : Type} : Except PyErr α → Bool
  | .ok _ => true
  | .error _ => false

/-- A template is well-formed when formatting it cannot raise; the formatting
outcome depends only on the template text (proved below), so probing with
empty arguments decides it. -/
def templateWF (template : String) : Bool :=
  isOkE (pyFormat template "" "")

/-- A chunk of template text with no brace characters at all. -/
def braceFree (s : String) : Bool :=
  s.data.all fun c => c != '{' && c != '}'

/-- The `Summarizer` object: the configuration fields stored by `__init__`
plus the mutable `self._client` slot. -/
structure Summarizer where
  provider : String
  model : String
  api_key : Option String
  openai_api_key : Option String
  openai_api_base : String
  openai_model : String
  prompt_template : String
  _client : Option Client
deriving DecidableEq, Repr

/-- `Summarizer._default_prompt`. -/
def Summarizer._default_prompt : String :=
  "请用中文为以下文章生成简洁摘要（3-5句话）：\n标题：{title}\n内容：{content}\n\n要求：突出核心观点，帮助读者快速判断是否值得阅读原文。"

/-- `Summarizer.__init__(config)`: every field stored with its default
applied when the key is absent; `self._client = None`. -/
def mkSummarizer (config : Config) : Summarizer :=
  { provider := config.provider.getD "claude"
    model := config.model.getD "claude-sonnet-4-20250514"
    api_key := config.api_key
    openai_api_key := config.openai_api_key
    openai_api_base := config.openai_api_base.getD "https://api.openai.com/v1"
    openai_model := config.openai_model.getD "gpt-4o-mini"
    prompt_template := config.summary_prompt.getD Summarizer._default_prompt
    _client := none }

/-- `Summarizer._get_claude_client`: if `self._client is None`, construct
`anthropic.Anthropic(api_key=self.api_key)` and cache it; return
`self._client`. -/
def Summarizer._get_claude_client (s : Summarizer) : Client × Summarizer :=
  match s._client with
  | none =>
      let c := Client.anthropicClient s.api_key
      (c, { s with _client := some c })
  | some c => (c, s)

/-- `Summarizer._get_openai_client`: if `self._client is None`, construct
`openai.OpenAI(api_key=self.openai_api_key, base_url=self.openai_api_base)`
and cache it; return `self._client`. -/
def Summarizer._get_openai_client (s : Summarizer) : Client × Summarizer :=
  match s._client with
  | none =>
      let c := Client.openaiClient s.openai_api_key s.openai_api_base
      (c, { s with _client := some c })
  | some c => (c, s)

/-- `Summarizer._summarize_with_claude(prompt)`: acquire the client, send one
user-role message with `model=self.model`, `max_tokens=500`, and take the
first text block of the response (all outcomes of the call and the
extraction are the oracle's answer). -/
def Summarizer._summarize_with_claude (env : Oracle) (s : Summarizer) (prompt : String) :
    Except PyErr String × Summarizer × List Event :=
  let (client, s1) := s._get_claude_client
  let req : Request := { client := client, model := s1.model, max_tokens := 500, prompt := prompt }
  (env req, s1, [Event.netCall req])

/-- `Summarizer._summarize_with_openai(prompt)`: acquire the client, send one
user-role message with `model=self.openai_model`, `max_tokens=500`, and take
the first choice's message content. -/
def Summarizer._summarize_with_openai (env : Oracle) (s : Summarizer) (prompt : String) :
    Except PyErr String × Summarizer × List Event :=
  let (client, s1) := s._get_openai_client
  let req : Request := { client := client, model := s1.openai_model, max_tokens := 500, prompt := prompt }
  (env req, s1, [Event.netCall req])

/-- The line logged when the provider call raises:
`f"[错误] LLM 摘要失败 ({article.title}): {e}"`. -/
def errLogMsg (a : Article) (e : PyErr) : String :=
  "[错误] LLM 摘要失败 (" ++ a.title ++ "): " ++ e.msg

/-- The `except Exception` boundary of `summarize`: a raising provider call
is converted to `None` after appending the error log line; a successful call
returns its text. -/
def absorbError (a : Article) (r : Except PyErr String × Summarizer × List Event) :
    Except PyErr (Option String) × Summarizer × List Event :=
  match r with
  | (.ok text, s1, evs) => (.ok (some text), s1, evs)
  | (.error e, s1, evs) => (.ok none, s1, evs ++ [Event.errLog (errLogMsg a e)])

/-- `Summarizer.summarize(article)`: short-circuit for content shorter than
100 characters (content verbatim, or the placeholder for empty content);
otherwise render the prompt template (outside the `try` block), dispatch on
`self.provider`, and absorb any exception of the dispatched call into
`None` with an error log line. -/
def Summarizer.summarize (env : Oracle) (s : Summarizer) (article : Article) :
    Except PyErr (Option String) × Summarizer × List Event :=
  if article.content.length < 100 then
    (.ok (some (if article.content = "" then "暂无内容摘要" else article.content)), s, [])
  else
    match pyFormat s.prompt_template article.title article.content with
    | .error e => (.error e, s, [])
    | .ok prompt =>
      if s.provider = "claude" then
        absorbError article (s._summarize_with_claude env prompt)
      else if s.provider = "openai" then
        absorbError article (s._summarize_with_openai env prompt)
      else
        (.ok none, s, [Event.warn ("[警告] 未知的 LLM provider: " ++ s.provider)])

/-- Python `l[:n]` for an `int` bound `n`: a negative bound counts from the
end of the list. -/
def pySliceTo {α : Type} (l : List α) (n : Int) : List α :=
  l.take (if n < 0 then ((l.length : Int) + n).toNat else n.toNat)

/-- The progress line printed before each item of the batch (0-based index
`i`, displayed 1-based; title truncated to 50 characters). -/
def progressMsg (i : Nat) (total : Int) (article : Article) : String :=
  "[摘要] (" ++ toString (i + 1) ++ "/" ++ toString total ++ ") " ++ article.title.take 50 ++ "..."

/-- The `for i, article in enumerate(articles[:max_articles])` loop body of
`summarize_batch`: print the progress line, summarize, append the pair.  An
exception escaping `summarize` aborts the loop and propagates (as in
Python). -/
def batchLoop (env : Oracle) (total : Int) :
    Summarizer → Nat → List Article →
    Except PyErr (List (Article × Option String)) × Summarizer × List Event
  | s, _, [] => (.ok [], s, [])
  | s, i, a :: rest =>
    let ev := Event.progress (progressMsg i total a)
    let r := Summarizer.summarize env s a
    match r.1 with
    | .error e => (.error e, r.2.1, ev :: r.2.2)
    | .ok summary =>
      let rb := batchLoop env total r.2.1 (i + 1) rest
      match rb.1 with
      | .error e => (.error e, rb.2.1, ev :: (r.2.2 ++ rb.2.2))
      | .ok pairs => (.ok ((a, summary) :: pairs), rb.2.1, ev :: (r.2.2 ++ rb.2.2))

/-- `Summarizer.summarize_batch(articles, max_articles)`. -/
def Summarizer.summarize_batch (env : Oracle) (s : Summarizer)
    (articles : List Article) (max_articles : Int) :
    Except PyErr (List (Article × Option String)) × Summarizer × List Event :=
  batchLoop env (min (articles.length : Int) max_articles) s 0 (pySliceTo articles max_articles)

theorem isOkE_mapE {α β : Type} (f : α → β) (e : Except PyErr α) :
    isOkE (mapE f e) = isOkE e := by
  cases e <;> rfl

theorem mapE_mapE {α β γ : Type} (f : β → γ) (g : α → β) (e : Except PyErr α) :
    mapE f (mapE g e) = mapE (fun a => f (g a)) e := by
  cases e <;> rfl

/-- Whether formatting succeeds depends only on the template, not on the
substituted `title`/`content` values. -/
theorem fmtRun_isOk_congr (t₁ c₁ t₂ c₂ : String) :
    ∀ (l : List Char) (st : FmtState),
      isOkE (fmtRun t₁ c₁ st l) = isOkE (fmtRun t₂ c₂ st l) := by
  intro l
  induction l with
  | nil => intro st; cases st <;> rfl
  | cons ch rest ih =>
      intro st
      cases st with
      | normal =>
          by_cases h1 : ch = '{'
          · simp [fmtRun, h1, ih]
          · by_cases h2 : ch = '}' <;> simp [fmtRun, h1, h2, isOkE_mapE, ih]
      | sawL =>
          by_cases h1 : ch = '{'
          · simp [fmtRun, h1, isOkE_mapE, ih]
          · by_cases h2 : ch = '}' <;>
              simp [fmtRun, h1, h2, lookupField, isOkE_mapE, ih]
      | sawR =>
          by_cases h1 : ch = '}' <;> simp [fmtRun, h1, isOkE_mapE, ih]
      | field acc =>
          by_cases h1 : ch = '}'
          · by_cases ht : String.mk acc = "title"
            · simp [fmtRun, h1, ht, lookupField, isOkE_mapE, ih]
            · by_cases hc : String.mk acc = "content" <;>
                simp [fmtRun, h1, ht, hc, lookupField, isOkE_mapE, ih]
          · simp [fmtRun, h1, ih]

/-- A well-formed template formats successfully for every `title` and
`content`. -/
theorem templateWF_ok (tpl t c : String) (h : templateWF tpl = true) :
    ∃ out, pyFormat tpl t c = .ok out := by
  have hok : isOkE (pyFormat tpl t c) = true := by
    unfold pyFormat at *
    unfold templateWF pyFormat at h
    rw [isOkE_mapE] at *
    rw [fmtRun_isOk_congr t c "" ""]
    exact h
  cases he : pyFormat tpl t c with
  | ok out => exact ⟨out, rfl⟩
  | error e => rw [he] at hok; exact absurd hok (by simp [isOkE])

/-- Literal (brace-free) template text passes through the scanner verbatim. -/
theorem fmtRun_literal_append (t c : String) :
    ∀ (l rest : List Char), (∀ ch ∈ l, ch ≠ '{' ∧ ch ≠ '}') →
      fmtRun t c .normal (l ++ rest) = mapE (l ++ ·) (fmtRun t c .normal rest) := by
  intro l
  induction l with
  | nil =>
      intro rest _
      cases h : fmtRun t c FmtState.normal rest <;> simp [mapE, h]
  | cons ch l ih =>
      intro rest hfree
      have hch := hfree ch (by simp)
      have hl : ∀ x ∈ l, x ≠ '{' ∧ x ≠ '}' := fun x hx => hfree x (by simp [hx])
      simp only [List.cons_append, fmtRun, if_neg hch.1, if_neg hch.2, List.append_eq]
      rw [ih rest hl, mapE_mapE]

/-- The replacement field for the title substitutes the title verbatim. -/
theorem fmtRun_title_block (t c : String) (rest : List Char) :
    fmtRun t c .normal ('{' :: 't' :: 'i' :: 't' :: 'l' :: 'e' :: '}' :: rest)
      = mapE (t.data ++ ·) (fmtRun t c .normal rest) := by
  simp [fmtRun, lookupField, String.mk]

/-- The replacement field for the content substitutes the content verbatim. -/
theorem fmtRun_content_block (t c : String) (rest : List Char) :
    fmtRun t c .normal ('{' :: 'c' :: 'o' :: 'n' :: 't' :: 'e' :: 'n' :: 't' :: '}' :: rest)
      = mapE (c.data ++ ·) (fmtRun t c .normal rest) := by
  simp [fmtRun, lookupField, String.mk]

theorem braceFree_chars (s : String) (h : braceFree s = true) :
    ∀ ch ∈ s.data, ch ≠ '{' ∧ ch ≠ '}' := by
  intro ch hch
  unfold braceFree at h
  rw [List.all_eq_true] at h
  have := h ch hch
  constructor <;> intro he <;> subst he <;> simp at this

/-- Rendering a template of shape `x ++ "\x7btitle\x7d" ++ y ++
"\x7bcontent\x7d" ++ z` with brace-free literal chunks substitutes `title`
and `content` verbatim into the placeholders. -/
theorem pyFormat_verbatim (x y z t c : String)
    (hx : braceFree x = true) (hy : braceFree y = true) (hz : braceFree z = true) :
    pyFormat (x ++ "{title}" ++ y ++ "{content}" ++ z) t c
      = .ok (x ++ t ++ y ++ c ++ z) := by
  have hdata : (x ++ "{title}" ++ y ++ "{content}" ++ z).data
      = x.data ++ ('{' :: 't' :: 'i' :: 't' :: 'l' :: 'e' :: '}' ::
          (y.data ++ ('{' :: 'c' :: 'o' :: 'n' :: 't' :: 'e' :: 'n' :: 't' :: '}' :: z.data))) := by
    simp [String.data_append]
  unfold pyFormat
  rw [hdata, fmtRun_literal_append t c x.data _ (braceFree_chars x hx),
    fmtRun_title_block, fmtRun_literal_append t c y.data _ (braceFree_chars y hy),
    fmtRun_content_block]
  have hzlit : fmtRun t c .normal z.data = .ok z.data := by
    have := fmtRun_literal_append t c z.data [] (braceFree_chars z hz)
    simpa [fmtRun, mapE] using this
  rw [hzlit]
  simp only [mapE]
  congr 1
  apply String.ext
  simp [String.data_append]

/-- The immutable configuration part of a `Summarizer` (everything except
the mutable `_client` slot), as one tuple. -/
def Summarizer.config_fields (s : Summarizer) :
    String × String × Option String × Option String × String × String × String :=
  (s.provider, s.model, s.api_key, s.openai_api_key, s.openai_api_base,
    s.openai_model, s.prompt_template)

/-- The client the configured provider would construct. -/
def ClientOK (s : Summarizer) : Prop :=
  s._client = none ∨
    (s.provider = "claude" ∧ s._client = some (Client.anthropicClient s.api_key)) ∨
    (s.provider = "openai" ∧
      s._client = some (Client.openaiClient s.openai_api_key s.openai_api_base))

instance (s : Summarizer) : Decidable (ClientOK s) := by
  unfold ClientOK; infer_instance

/-- Collapses the module's result convention: a success carries the optional
summary, an uncaught exception is read as "no summary" (only used where the
exception case is ruled out). -/
def okValue : Except PyErr (Option String) → Option String
  | .ok r => r
  | .error _ => none

/-- Under the client invariant, the claude getter yields the anthropic
client built from `api_key`, caching it if absent. -/
theorem get_claude_client_spec (s : Summarizer) (hOK : ClientOK s)
    (hp : s.provider = "claude") :
    s._get_claude_client =
      (Client.anthropicClient s.api_key,
        { s with _client := some (Client.anthropicClient s.api_key) }) := by
  rcases hOK with h | ⟨_, h⟩ | ⟨hq, _⟩
  · obtain ⟨p, m, k, ok, ob, om, tpl, cl⟩ := s
    simp only at h
    simp [Summarizer._get_claude_client, h]
  · obtain ⟨p, m, k, ok, ob, om, tpl, cl⟩ := s
    simp only at h
    simp [Summarizer._get_claude_client, h]
  · rw [hp] at hq; exact absurd hq (by decide)

/-- Under the client invariant, the openai getter yields the openai client
built from `openai_api_key` and `openai_api_base`, caching it if absent. -/
theorem get_openai_client_spec (s : Summarizer) (hOK : ClientOK s)
    (hp : s.provider = "openai") :
    s._get_openai_client =
      (Client.openaiClient s.openai_api_key s.openai_api_base,
        { s with _client := some (Client.openaiClient s.openai_api_key s.openai_api_base) }) := by
  rcases hOK with h | ⟨hq, _⟩ | ⟨_, h⟩
  · obtain ⟨p, m, k, ok, ob, om, tpl, cl⟩ := s
    simp only at h
    simp [Summarizer._get_openai_client, h]
  · rw [hp] at hq; exact absurd hq (by decide)
  · obtain ⟨p, m, k, ok, ob, om, tpl, cl⟩ := s
    simp only at h
    simp [Summarizer._get_openai_client, h]

/-- The claude getter leaves every configuration field unchanged. -/
theorem get_claude_config (s : Summarizer) :
    (s._get_claude_client).2.config_fields = s.config_fields := by
  unfold Summarizer._get_claude_client
  cases h : s._client <;> rfl

/-- The openai getter leaves every configuration field unchanged. -/
theorem get_openai_config (s : Summarizer) :
    (s._get_openai_client).2.config_fields = s.config_fields := by
  unfold Summarizer._get_openai_client
  cases h : s._client <;> rfl

/-- A cached client is returned as is, with no state change. -/
theorem get_claude_cached (s : Summarizer) (c : Client) (h : s._client = some c) :
    s._get_claude_client = (c, s) := by
  unfold Summarizer._get_claude_client
  rw [h]

/-- A cached client is returned as is, with no state change. -/
theorem get_openai_cached (s : Summarizer) (c : Client) (h : s._client = some c) :
    s._get_openai_client = (c, s) := by
  unfold Summarizer._get_openai_client
  rw [h]

/-- The except boundary does not touch the state. -/
theorem absorbError_state (a : Article) (r : Except PyErr String × Summarizer × List Event) :
    (absorbError a r).2.1 = r.2.1 := by
  obtain ⟨r1, s1, evs⟩ := r
  cases r1 <;> rfl

/-- The state `summarize` leaves behind is the input state, or the state the
relevant provider getter leaves behind. -/
theorem summarize_state_cases (env : Oracle) (s : Summarizer) (a : Article) :
    (Summarizer.summarize env s a).2.1 = s ∨
    (s.provider = "claude" ∧ (Summarizer.summarize env s a).2.1 = (s._get_claude_client).2) ∨
    (s.provider = "openai" ∧ (Summarizer.summarize env s a).2.1 = (s._get_openai_client).2) := by
  unfold Summarizer.summarize
  split
  · left; rfl
  · split
    · left; rfl
    · split
      · rename_i hp
        right; left
        refine ⟨hp, ?_⟩
        rw [absorbError_state]
        rfl
      · split
        · rename_i hp
          right; right
          refine ⟨hp, ?_⟩
          rw [absorbError_state]
          rfl
        · left; rfl

/-- `summarize` never changes any configuration field. -/
theorem summarize_config (env : Oracle) (s : Summarizer) (a : Article) :
    (Summarizer.summarize env s a).2.1.config_fields = s.config_fields := by
  rcases summarize_state_cases env s a with hs | ⟨_, hs⟩ | ⟨_, hs⟩ <;> rw [hs]
  · exact get_claude_config s
  · exact get_openai_config s

/-- Once a client is cached it is never replaced by `summarize`. -/
theorem summarize_client_mono (env : Oracle) (s : Summarizer) (a : Article) (c : Client)
    (h : s._client = some c) :
    (Summarizer.summarize env s a).2.1._client = some c := by
  rcases summarize_state_cases env s a with hs | ⟨_, hs⟩ | ⟨_, hs⟩ <;> rw [hs]
  · exact h
  · rw [get_claude_cached s c h]; exact h
  · rw [get_openai_cached s c h]; exact h

/-- `summarize` preserves the client invariant. -/
theorem summarize_clientOK (env : Oracle) (s : Summarizer) (a : Article) (hOK : ClientOK s) :
    ClientOK ((Summarizer.summarize env s a).2.1) := by
  rcases summarize_state_cases env s a with hs | ⟨hp, hs⟩ | ⟨hp, hs⟩ <;> rw [hs]
  · exact hOK
  · cases hc : s._client with
    | none =>
        simp only [Summarizer._get_claude_client, hc]
        right; left
        exact ⟨hp, rfl⟩
    | some c => rw [get_claude_cached s c hc]; exact hOK
  · cases hc : s._client with
    | none =>
        simp only [Summarizer._get_openai_client, hc]
        right; right
        exact ⟨hp, rfl⟩
    | some c => rw [get_openai_cached s c hc]; exact hOK

/-- The request the claude path dispatches for a given prompt, for a state
satisfying the client invariant. -/
def claudeReq (s : Summarizer) (prompt : String) : Request :=
  { client := Client.anthropicClient s.api_key, model := s.model,
    max_tokens := 500, prompt := prompt }

/-- The request the openai path dispatches for a given prompt, for a state
satisfying the client invariant. -/
def openaiReq (s : Summarizer) (prompt : String) : Request :=
  { client := Client.openaiClient s.openai_api_key s.openai_api_base,
    model := s.openai_model, max_tokens := 500, prompt := prompt }

/-- Short content short-circuits: content verbatim (placeholder when empty),
no event, no state change. -/
theorem summarize_short (env : Oracle) (s : Summarizer) (a : Article)
    (h : a.content.length < 100) :
    Summarizer.summarize env s a =
      (.ok (some (if a.content = "" then "暂无内容摘要" else a.content)), s, []) := by
  unfold Summarizer.summarize
  rw [if_pos h]

/-- Under the client invariant, the claude helper dispatches exactly
`claudeReq` and caches the anthropic client. -/
theorem summarize_with_claude_spec (env : Oracle) (s : Summarizer) (prompt : String)
    (hOK : ClientOK s) (hp : s.provider = "claude") :
    Summarizer._summarize_with_claude env s prompt =
      (env (claudeReq s prompt),
       { s with _client := some (Client.anthropicClient s.api_key) },
       [Event.netCall (claudeReq s prompt)]) := by
  unfold Summarizer._summarize_with_claude
  rw [get_claude_client_spec s hOK hp]
  rfl

/-- Under the client invariant, the openai helper dispatches exactly
`openaiReq` and caches the openai client. -/
theorem summarize_with_openai_spec (env : Oracle) (s : Summarizer) (prompt : String)
    (hOK : ClientOK s) (hp : s.provider = "openai") :
    Summarizer._summarize_with_openai env s prompt =
      (env (openaiReq s prompt),
       { s with _client := some (Client.openaiClient s.openai_api_key s.openai_api_base) },
       [Event.netCall (openaiReq s prompt)]) := by
  unfold Summarizer._summarize_with_openai
  rw [get_openai_client_spec s hOK hp]
  rfl

/-- Full behaviour of the claude dispatch path. -/
theorem summarize_claude_spec (env : Oracle) (s : Summarizer) (a : Article) (prompt : String)
    (hlen : ¬ a.content.length < 100) (hOK : ClientOK s) (hp : s.provider = "claude")
    (hfmt : pyFormat s.prompt_template a.title a.content = .ok prompt) :
    Summarizer.summarize env s a =
      ((match env (claudeReq s prompt) with
        | .ok text => .ok (some text)
        | .error _ => .ok none),
       { s with _client := some (Client.anthropicClient s.api_key) },
       (match env (claudeReq s prompt) with
        | .ok _ => [Event.netCall (claudeReq s prompt)]
        | .error e => [Event.netCall (claudeReq s prompt), Event.errLog (errLogMsg a e)])) := by
  unfold Summarizer.summarize
  rw [if_neg hlen]
  simp only [hfmt]
  rw [if_pos hp, summarize_with_claude_spec env s prompt hOK hp]
  cases henv : env (claudeReq s prompt) <;> simp [henv, absorbError]

/-- Full behaviour of the openai dispatch path. -/
theorem summarize_openai_spec (env : Oracle) (s : Summarizer) (a : Article) (prompt : String)
    (hlen : ¬ a.content.length < 100) (hOK : ClientOK s) (hp : s.provider = "openai")
    (hfmt : pyFormat s.prompt_template a.title a.content = .ok prompt) :
    Summarizer.summarize env s a =
      ((match env (openaiReq s prompt) with
        | .ok text => .ok (some text)
        | .error _ => .ok none),
       { s with _client := some (Client.openaiClient s.openai_api_key s.openai_api_base) },
       (match env (openaiReq s prompt) with
        | .ok _ => [Event.netCall (openaiReq s prompt)]
        | .error e => [Event.netCall (openaiReq s prompt), Event.errLog (errLogMsg a e)])) := by
  have hpc : ¬ s.provider = "claude" := by rw [hp]; decide
  unfold Summarizer.summarize
  rw [if_neg hlen]
  simp only [hfmt]
  rw [if_neg hpc, if_pos hp, summarize_with_openai_spec env s prompt hOK hp]
  cases henv : env (openaiReq s prompt) <;> simp [henv, absorbError]

/-- Full behaviour of the unknown-provider path. -/
theorem summarize_unknown_spec (env : Oracle) (s : Summarizer) (a : Article) (prompt : String)
    (hlen : ¬ a.content.length < 100)
    (hp1 : s.provider ≠ "claude") (hp2 : s.provider ≠ "openai")
    (hfmt : pyFormat s.prompt_template a.title a.content = .ok prompt) :
    Summarizer.summarize env s a =
      (.ok none, s, [Event.warn ("[警告] 未知的 LLM provider: " ++ s.provider)]) := by
  unfold Summarizer.summarize
  rw [if_neg hlen, hfmt]
  simp only [if_neg hp1, if_neg hp2]

/-- The exception of a failed template rendering propagates out of
`summarize` untouched. -/
theorem summarize_format_error (env : Oracle) (s : Summarizer) (a : Article) (e : PyErr)
    (hlen : ¬ a.content.length < 100)
    (hfmt : pyFormat s.prompt_template a.title a.content = .error e) :
    Summarizer.summarize env s a = (.error e, s, []) := by
  unfold Summarizer.summarize
  rw [if_neg hlen, hfmt]

/-- The except boundary always produces a success value. -/
theorem absorbError_ok_shape (a : Article) (r : Except PyErr String × Summarizer × List Event) :
    ∃ v, absorbError a r = (Except.ok v, (absorbError a r).2.1, (absorbError a r).2.2) := by
  obtain ⟨r1, s1, evs⟩ := r
  cases r1 <;> exact ⟨_, rfl⟩

/-- With a well-formed template, `summarize` never lets an exception out:
the result is always a success (a summary or `None`). -/
theorem summarize_isOk (env : Oracle) (s : Summarizer) (a : Article)
    (hWF : templateWF s.prompt_template = true) :
    ∃ r s1 evs, Summarizer.summarize env s a = (Except.ok r, s1, evs) := by
  by_cases hlen : a.content.length < 100
  · exact ⟨_, _, _, summarize_short env s a hlen⟩
  · obtain ⟨prompt, hfmt⟩ := templateWF_ok s.prompt_template a.title a.content hWF
    unfold Summarizer.summarize
    rw [if_neg hlen]
    simp only [hfmt]
    split
    · obtain ⟨v, hv⟩ := absorbError_ok_shape a (Summarizer._summarize_with_claude env s prompt)
      exact ⟨v, _, _, hv⟩
    · split
      · obtain ⟨v, hv⟩ := absorbError_ok_shape a (Summarizer._summarize_with_openai env s prompt)
        exact ⟨v, _, _, hv⟩
      · exact ⟨_, _, _, rfl⟩

/-- Equal configuration tuples give equal prompt templates. -/
theorem config_fields_template {s₁ s₂ : Summarizer} (h : s₁.config_fields = s₂.config_fields) :
    s₁.prompt_template = s₂.prompt_template := by
  simp only [Summarizer.config_fields, Prod.mk.injEq] at h
  exact h.2.2.2.2.2.2

/-- The result of `summarize` depends only on the configuration, not on
whether the client is already cached, for states satisfying the client
invariant. -/
theorem summarize_result_congr (env : Oracle) (s₁ s₂ : Summarizer) (a : Article)
    (hOK1 : ClientOK s₁) (hOK2 : ClientOK s₂)
    (hc : s₁.config_fields = s₂.config_fields) :
    (Summarizer.summarize env s₁ a).1 = (Summarizer.summarize env s₂ a).1 := by
  have hc' := hc
  simp only [Summarizer.config_fields, Prod.mk.injEq] at hc'
  obtain ⟨hp, hm, hk, hok, hob, hom, htpl⟩ := hc'
  by_cases hlen : a.content.length < 100
  · rw [summarize_short env s₁ a hlen, summarize_short env s₂ a hlen]
  · cases hfmt : pyFormat s₂.prompt_template a.title a.content with
    | error e =>
        rw [summarize_format_error env s₁ a e hlen (by rw [htpl]; exact hfmt),
          summarize_format_error env s₂ a e hlen hfmt]
    | ok prompt =>
        have hfmt1 : pyFormat s₁.prompt_template a.title a.content = .ok prompt := by
          rw [htpl]; exact hfmt
        by_cases hcl : s₂.provider = "claude"
        · rw [summarize_claude_spec env s₁ a prompt hlen hOK1 (by rw [hp]; exact hcl) hfmt1,
            summarize_claude_spec env s₂ a prompt hlen hOK2 hcl hfmt]
          simp only [claudeReq, hk, hm]
        · by_cases hoa : s₂.provider = "openai"
          · rw [summarize_openai_spec env s₁ a prompt hlen hOK1 (by rw [hp]; exact hoa) hfmt1,
              summarize_openai_spec env s₂ a prompt hlen hOK2 hoa hfmt]
            simp only [openaiReq, hok, hob, hom]
          · rw [summarize_unknown_spec env s₁ a prompt hlen (by rw [hp]; exact hcl)
                (by rw [hp]; exact hoa) hfmt1,
              summarize_unknown_spec env s₂ a prompt hlen hcl hoa hfmt]

theorem mapCongrList {α β : Type} (f g : α → β) :
    ∀ (l : List α), (∀ a ∈ l, f a = g a) → l.map f = l.map g := by
  intro l
  induction l with
  | nil => intro _; rfl
  | cons a rest ih =>
      intro h
      simp only [List.map_cons, h a (by simp)]
      rw [ih fun x hx => h x (by simp [hx])]

/-- Full characterisation of the batch loop for states satisfying the client
invariant and carrying a well-formed template: it never raises, it yields one
pair per input article in order, each carrying that article and the result
`summarize` gives for it, and it preserves the invariant and the
configuration. -/
theorem batchLoop_spec (env : Oracle) (total : Int) :
    ∀ (l : List Article) (s : Summarizer) (i : Nat),
      ClientOK s → templateWF s.prompt_template = true →
      (batchLoop env total s i l).1
          = .ok (l.map fun a => (a, okValue (Summarizer.summarize env s a).1)) ∧
      ClientOK (batchLoop env total s i l).2.1 ∧
      (batchLoop env total s i l).2.1.config_fields = s.config_fields := by
  intro l
  induction l with
  | nil => intro s i hOK hWF; exact ⟨rfl, hOK, rfl⟩
  | cons a rest ih =>
      intro s i hOK hWF
      obtain ⟨v, s1x, evsx, hs⟩ := summarize_isOk env s a hWF
      have hs1 : (Summarizer.summarize env s a).1 = Except.ok v := by rw [hs]
      have hOK1 : ClientOK (Summarizer.summarize env s a).2.1 := summarize_clientOK env s a hOK
      have hcfg1 : (Summarizer.summarize env s a).2.1.config_fields = s.config_fields :=
        summarize_config env s a
      have hWF1 : templateWF (Summarizer.summarize env s a).2.1.prompt_template = true := by
        rw [config_fields_template hcfg1]; exact hWF
      obtain ⟨hres, hOK2, hcfg2⟩ := ih ((Summarizer.summarize env s a).2.1) (i + 1) hOK1 hWF1
      have hmap : rest.map
            (fun x => (x, okValue (Summarizer.summarize env (Summarizer.summarize env s a).2.1 x).1))
          = rest.map (fun x => (x, okValue (Summarizer.summarize env s x).1)) := by
        apply mapCongrList
        intro x _
        rw [summarize_result_congr env ((Summarizer.summarize env s a).2.1) s x hOK1 hOK hcfg1]
      simp only [batchLoop, hs1, hres, hmap, List.map_cons]
      refine ⟨?_, hOK2, hcfg2.trans hcfg1⟩
      simp [okValue, hs1]

/-- The batch loop never raises when the template is well-formed. -/
theorem batchLoop_isOk (env : Oracle) (total : Int) :
    ∀ (l : List Article) (s : Summarizer) (i : Nat),
      templateWF s.prompt_template = true →
      ∃ pairs, (batchLoop env total s i l).1 = Except.ok pairs := by
  intro l
  induction l with
  | nil => intro s i _; exact ⟨[], rfl⟩
  | cons a rest ih =>
      intro s i hWF
      obtain ⟨v, s1x, evsx, hs⟩ := summarize_isOk env s a hWF
      have hs1 : (Summarizer.summarize env s a).1 = Except.ok v := by rw [hs]
      have hWF1 : templateWF (Summarizer.summarize env s a).2.1.prompt_template = true := by
        rw [config_fields_template (summarize_config env s a)]; exact hWF
      obtain ⟨pairs, hres⟩ := ih ((Summarizer.summarize env s a).2.1) (i + 1) hWF1
      simp only [batchLoop, hs1, hres]
      exact ⟨(a, v) :: pairs, rfl⟩

/-- Unconditional state facts about the batch loop: the configuration is
never changed, the client invariant is preserved, and a cached client is
never replaced. -/
theorem batchLoop_state (env : Oracle) (total : Int) :
    ∀ (l : List Article) (s : Summarizer) (i : Nat),
      (batchLoop env total s i l).2.1.config_fields = s.config_fields ∧
      (ClientOK s → ClientOK (batchLoop env total s i l).2.1) ∧
      (∀ c, s._client = some c → (batchLoop env total s i l).2.1._client = some c) := by
  intro l
  induction l with
  | nil => intro s i; exact ⟨rfl, fun h => h, fun _ h => h⟩
  | cons a rest ih =>
      intro s i
      simp only [batchLoop]
      cases h1 : (Summarizer.summarize env s a).1 with
      | error e =>
          exact ⟨summarize_config env s a, summarize_clientOK env s a,
            fun c hc => summarize_client_mono env s a c hc⟩
      | ok v =>
          obtain ⟨ih1, ih2, ih3⟩ := ih ((Summarizer.summarize env s a).2.1) (i + 1)
          cases h2 : (batchLoop env total (Summarizer.summarize env s a).2.1 (i + 1) rest).1 with
          | error e =>
              refine ⟨?_, ?_, ?_⟩
              · rw [show (batchLoop env total (Summarizer.summarize env s a).2.1 (i + 1) rest).2.1.config_fields
                    = s.config_fields from ih1.trans (summarize_config env s a)]
              · exact fun h => ih2 (summarize_clientOK env s a h)
              · exact fun c hc => ih3 c (summarize_client_mono env s a c hc)
          | ok pairs =>
              refine ⟨?_, ?_, ?_⟩
              · rw [show (batchLoop env total (Summarizer.summarize env s a).2.1 (i + 1) rest).2.1.config_fields
                    = s.config_fields from ih1.trans (summarize_config env s a)]
              · exact fun h => ih2 (summarize_clientOK env s a h)
              · exact fun c hc => ih3 c (summarize_client_mono env s a c hc)

/-- One externally observable call made against a `Summarizer` instance. -/
inductive CallStep where
  | single (env : Oracle) (a : Article)
  | batch (env : Oracle) (articles : List Article) (max_articles : Int)

/-- The instance state after a sequence of `summarize` / `summarize_batch`
calls. -/
def runCalls : Summarizer → List CallStep → Summarizer
  | s, [] => s
  | s, .single env a :: rest => runCalls (Summarizer.summarize env s a).2.1 rest
  | s, .batch env l n :: rest => runCalls (Summarizer.summarize_batch env s l n).2.1 rest

/-- Along any sequence of calls, the configuration is never changed, the
client invariant is preserved, and a cached client is never replaced. -/
theorem runCalls_state (calls : List CallStep) : ∀ (s : Summarizer),
    (runCalls s calls).config_fields = s.config_fields ∧
    (ClientOK s → ClientOK (runCalls s calls)) ∧
    (∀ c, s._client = some c → (runCalls s calls)._client = some c) := by
  induction calls with
  | nil => intro s; exact ⟨rfl, fun h => h, fun _ h => h⟩
  | cons step rest ih =>
      intro s
      cases step with
      | single env a =>
          obtain ⟨ih1, ih2, ih3⟩ := ih ((Summarizer.summarize env s a).2.1)
          exact ⟨ih1.trans (summarize_config env s a),
            fun h => ih2 (summarize_clientOK env s a h),
            fun c hc => ih3 c (summarize_client_mono env s a c hc)⟩
      | batch env l n =>
          obtain ⟨ih1, ih2, ih3⟩ := ih ((Summarizer.summarize_batch env s l n).2.1)
          obtain ⟨b1, b2, b3⟩ := batchLoop_state env (min (l.length : Int) n) (pySliceTo l n) s 0
          exact ⟨ih1.trans b1, fun h => ih2 (b2 h), fun c hc => ih3 c (b3 c hc)⟩

/-- For a non-negative bound, the Python slice is a plain prefix. -/
theorem pySliceTo_nonneg {α : Type} (l : List α) (n : Int) (hn : 0 ≤ n) :
    pySliceTo l n = l.take n.toNat := by
  unfold pySliceTo
  rw [if_neg (by omega)]

/-- A test oracle that always answers with a fixed summary text. -/
def oracleOk : Oracle := fun _ => .ok "SUMMARY"

/-- A test oracle whose every call raises. -/
def oracleErr : Oracle := fun _ => .error (PyErr.exc "boom")

/-- A minimal claude configuration for concrete witnesses. -/
def cfgTest : Config :=
  { provider := some "claude", model := none, api_key := some "k",
    openai_api_key := none, openai_api_base := none, openai_model := none,
    summary_prompt := none }

/-- The instance the witnesses run against. -/
def sTest : Summarizer := mkSummarizer cfgTest

/-- A configuration whose prompt template names an unknown placeholder. -/
def cfgBadTemplate : Config := { cfgTest with summary_prompt := some "{bad}" }

/-- The instance built from `cfgBadTemplate`. -/
def sBadTemplate : Summarizer := mkSummarizer cfgBadTemplate

/-- An instance whose provider is neither claude nor openai. -/
def sMystery : Summarizer := mkSummarizer { cfgTest with provider := some "mystery" }

/-- A 100-character content, at the threshold where the network path runs. -/
def longContent : String := String.mk (List.replicate 100 'a')

/-- An article long enough for the network path. -/
def artLong : Article := { title := "T", content := longContent }

/-- An article with short non-empty content. -/
def artShort : Article := { title := "B", content := "hi" }

/-- An article with empty content. -/
def artEmpty : Article := { title := "A", content := "" }

/-- The prompt the default template renders for `artLong`. -/
def promptLong : String :=
  "请用中文为以下文章生成简洁摘要（3-5句话）：\n标题：T\n内容：" ++ longContent ++
    "\n\n要求：突出核心观点，帮助读者快速判断是否值得阅读原文。"

/-- C1: for every article whose content is non-empty and shorter than 100
characters, `summarize` returns exactly that content unchanged, and for
every article whose content is empty it returns the fixed placeholder
"暂无内容摘要"; in both cases no network call is made (the event trace is
empty) and the state is untouched. -/
theorem C1_short_content (env : Oracle) (s : Summarizer) (a : Article)
    (h : a.content.length < 100) :
    (a.content ≠ "" →
      Summarizer.summarize env s a = (Except.ok (some a.content), s, [])) ∧
    (a.content = "" →
      Summarizer.summarize env s a = (Except.ok (some "暂无内容摘要"), s, [])) := by
  constructor
  · intro hne
    rw [summarize_short env s a h, if_neg hne]
  · intro he
    rw [summarize_short env s a h, if_pos he]

theorem C1_short_content_witness :
    (Summarizer.summarize oracleOk sTest artShort = (Except.ok (some "hi"), sTest, [])) ∧
    (Summarizer.summarize oracleOk sTest artEmpty
      = (Except.ok (some "暂无内容摘要"), sTest, [])) :=
  ⟨(C1_short_content oracleOk sTest artShort (by decide)).1 (by decide),
   (C1_short_content oracleOk sTest artEmpty (by decide)).2 rfl⟩

/-- C2 counterexample: the claim fails for a configuration whose prompt
template names an unknown placeholder — `str.format` runs outside the `try`
block, so on an article with content of length 100 the `KeyError` escapes
`summarize` to the caller instead of being absorbed. -/
theorem C2_counterexample :
    (Summarizer.summarize oracleOk sBadTemplate artLong).1
      = Except.error (PyErr.keyError "bad") := by
  rfl

/-- C2 (amended): for every article and every configuration whose prompt
template is well-formed (its placeholders are only `\x7btitle\x7d` and
`\x7bcontent\x7d` and its braces are balanced — the default template
qualifies), no exception raised during `summarize` reaches the caller, and
`summarize_batch` never raises as a whole: every failure surfaces only as
the empty-result signal `None`.  This holds for every title and content,
including contents of length ≥ 100 with arbitrary characters, and for every
oracle behaviour. -/
theorem C2_failures_absorbed (env : Oracle) (s : Summarizer) (a : Article)
    (articles : List Article) (n : Int)
    (hWF : templateWF s.prompt_template = true) :
    isOkE (Summarizer.summarize env s a).1 = true ∧
    isOkE (Summarizer.summarize_batch env s articles n).1 = true := by
  constructor
  · obtain ⟨r, s1, evs, h⟩ := summarize_isOk env s a hWF
    rw [h]
    rfl
  · obtain ⟨pairs, h⟩ :=
      batchLoop_isOk env (min (articles.length : Int) n) (pySliceTo articles n) s 0 hWF
    unfold Summarizer.summarize_batch
    rw [h]
    rfl

theorem C2_failures_absorbed_witness :
    isOkE (Summarizer.summarize oracleErr sTest artLong).1 = true ∧
    isOkE (Summarizer.summarize_batch oracleErr sTest [artLong, artShort] 10).1 = true :=
  C2_failures_absorbed oracleErr sTest artLong [artLong, artShort] 10 (by decide)

/-- C3 counterexample: the claim fails for a negative `max_articles`.  With
two articles and `max_articles = -1`, Python's slice `articles[:-1]` keeps
one article, so `summarize_batch` returns 1 pair while `min(len(articles),
max_articles) = -1`. -/
theorem C3_counterexample :
    (Summarizer.summarize_batch oracleOk sTest [artEmpty, artShort] (-1)).1
        = Except.ok [(artEmpty, some "暂无内容摘要")] ∧
    ¬ ((1 : Int) = min ((2 : Nat) : Int) (-1)) := by
  constructor
  · rfl
  · decide

/-- C3 (amended): for every article list and every `max_articles` value
N ≥ 0 (negative N slices from the end instead), on an instance whose cached
client matches its provider and whose template is well-formed,
`summarize_batch` returns exactly `min(len(articles), N)` pairs, in input
order over the prefix, the i-th pair being the i-th input article together
with the result of `summarize` on it. -/
theorem C3_batch_shape (env : Oracle) (s : Summarizer) (articles : List Article) (n : Int)
    (hn : 0 ≤ n) (hOK : ClientOK s) (hWF : templateWF s.prompt_template = true) :
    (Summarizer.summarize_batch env s articles n).1
      = Except.ok ((articles.take n.toNat).map
          fun a => (a, okValue (Summarizer.summarize env s a).1)) ∧
    ((articles.take n.toNat).map
        fun a => (a, okValue (Summarizer.summarize env s a).1)).length
      = min articles.length n.toNat := by
  have hslice := pySliceTo_nonneg articles n hn
  constructor
  · have h := (batchLoop_spec env (min ((articles.length : Int)) n)
      (pySliceTo articles n) s 0 hOK hWF).1
    unfold Summarizer.summarize_batch
    rw [h, hslice]
  · rw [List.length_map, List.length_take, Nat.min_comm]

theorem C3_batch_shape_witness :
    (Summarizer.summarize_batch oracleOk sTest [artShort, artEmpty, artLong] 2).1
      = Except.ok (([artShort, artEmpty, artLong].take (Int.toNat 2)).map
          fun a => (a, okValue (Summarizer.summarize oracleOk sTest a).1)) ∧
    (([artShort, artEmpty, artLong].take (Int.toNat 2)).map
        fun a => (a, okValue (Summarizer.summarize oracleOk sTest a).1)).length
      = min ([artShort, artEmpty, artLong].length) (Int.toNat 2) :=
  C3_batch_shape oracleOk sTest [artShort, artEmpty, artLong] 2
    (by decide) (by decide) (by decide)

/-- C4: for every article with content of length ≥ 100 and provider
`claude` or `openai`, if the dispatched provider call raises any error,
`summarize` catches it, logs the article title with the error detail,
returns the empty-result signal `None`, and does not propagate the error
(the result is a success carrying `None`, the trace records the call and
the error log line). -/
theorem C4_provider_error_absorbed (env : Oracle) (s : Summarizer) (a : Article)
    (prompt : String) (e : PyErr)
    (hlen : ¬ a.content.length < 100) (hOK : ClientOK s)
    (hfmt : pyFormat s.prompt_template a.title a.content = .ok prompt) :
    (s.provider = "claude" → env (claudeReq s prompt) = .error e →
      Summarizer.summarize env s a =
        (Except.ok none,
         { s with _client := some (Client.anthropicClient s.api_key) },
         [Event.netCall (claudeReq s prompt), Event.errLog (errLogMsg a e)])) ∧
    (s.provider = "openai" → env (openaiReq s prompt) = .error e →
      Summarizer.summarize env s a =
        (Except.ok none,
         { s with _client := some (Client.openaiClient s.openai_api_key s.openai_api_base) },
         [Event.netCall (openaiReq s prompt), Event.errLog (errLogMsg a e)])) := by
  constructor
  · intro hp henv
    rw [summarize_claude_spec env s a prompt hlen hOK hp hfmt, henv]
  · intro hp henv
    rw [summarize_openai_spec env s a prompt hlen hOK hp hfmt, henv]

theorem C4_provider_error_absorbed_witness :
    Summarizer.summarize oracleErr sTest artLong =
      (Except.ok none,
       { sTest with _client := some (Client.anthropicClient (some "k")) },
       [Event.netCall (claudeReq sTest promptLong),
        Event.errLog (errLogMsg artLong (PyErr.exc "boom"))]) :=
  (C4_provider_error_absorbed oracleErr sTest artLong promptLong (PyErr.exc "boom")
      (by decide) (by decide) (by rfl)).1 rfl rfl

/-- C5: whenever the `summarize` result for an article of the processed
prefix is the empty-result signal, `summarize_batch` does not abort: it
still returns one pair per article of the whole prefix, in order, the
failed article's pair carrying `None` and every subsequent article carrying
its own `summarize` result. -/
theorem C5_batch_continues (env : Oracle) (s : Summarizer) (articles : List Article) (n : Int)
    (i : Nat) (hOK : ClientOK s) (hWF : templateWF s.prompt_template = true)
    (hi : i < (pySliceTo articles n).length)
    (hfail : (Summarizer.summarize env s ((pySliceTo articles n).get ⟨i, hi⟩)).1
      = Except.ok none) :
    (Summarizer.summarize_batch env s articles n).1
      = Except.ok ((pySliceTo articles n).map
          fun a => (a, okValue (Summarizer.summarize env s a).1)) ∧
    ((pySliceTo articles n).map
        fun a => (a, okValue (Summarizer.summarize env s a).1)).length
      = (pySliceTo articles n).length ∧
    ((pySliceTo articles n).map
        fun a => (a, okValue (Summarizer.summarize env s a).1))[i]?
      = some ((pySliceTo articles n).get ⟨i, hi⟩, none) := by
  have h1 := (batchLoop_spec env (min ((articles.length : Int)) n)
    (pySliceTo articles n) s 0 hOK hWF).1
  refine ⟨?_, by simp, ?_⟩
  · unfold Summarizer.summarize_batch
    rw [h1]
  · rw [List.getElem?_map, List.getElem?_eq_getElem hi]
    have hfail2 : (Summarizer.summarize env s (pySliceTo articles n)[i]).1
        = Except.ok none := hfail
    simp [hfail2, okValue]

theorem C5_batch_continues_witness :
    (Summarizer.summarize_batch oracleErr sTest [artLong, artShort] 10).1
      = Except.ok [(artLong, none), (artShort, some "hi")] := by
  have h := (C5_batch_continues oracleErr sTest [artLong, artShort] 10 0 (by decide) (by decide)
      (by decide) (by rfl)).1
  rw [h]
  rfl

/-- C6: for every configured provider other than `claude` and `openai` and
every article with content of length ≥ 100 (under a well-formed template),
`summarize` emits exactly one warning naming the provider, makes no network
call (no other event), leaves the state untouched and returns the
empty-result signal `None`. -/
theorem C6_unknown_provider (env : Oracle) (s : Summarizer) (a : Article)
    (hlen : ¬ a.content.length < 100)
    (hp1 : s.provider ≠ "claude") (hp2 : s.provider ≠ "openai")
    (hWF : templateWF s.prompt_template = true) :
    Summarizer.summarize env s a
      = (Except.ok none, s, [Event.warn ("[警告] 未知的 LLM provider: " ++ s.provider)]) := by
  obtain ⟨prompt, hfmt⟩ := templateWF_ok s.prompt_template a.title a.content hWF
  exact summarize_unknown_spec env s a prompt hlen hp1 hp2 hfmt

theorem C6_unknown_provider_witness :
    Summarizer.summarize oracleOk sMystery artLong
      = (Except.ok none, sMystery,
         [Event.warn ("[警告] 未知的 LLM provider: " ++ sMystery.provider)]) :=
  C6_unknown_provider oracleOk sMystery artLong (by decide) (by decide) (by decide) (by decide)

/-- C7: for every article with content of length ≥ 100, `summarize` renders
the configured template by substituting the article's title and content
verbatim into the `\x7btitle\x7d` and `\x7bcontent\x7d` placeholders and
dispatches exactly that prompt to the configured provider — so the
dispatched prompt is determined by the template and changes with it. -/
theorem C7_prompt_rendered (env : Oracle) (s : Summarizer) (a : Article)
    (x y z : String)
    (hlen : ¬ a.content.length < 100) (hOK : ClientOK s)
    (htpl : s.prompt_template = x ++ "{title}" ++ y ++ "{content}" ++ z)
    (hx : braceFree x = true) (hy : braceFree y = true) (hz : braceFree z = true) :
    (s.provider = "claude" →
      Event.netCall (claudeReq s (x ++ a.title ++ y ++ a.content ++ z))
        ∈ (Summarizer.summarize env s a).2.2) ∧
    (s.provider = "openai" →
      Event.netCall (openaiReq s (x ++ a.title ++ y ++ a.content ++ z))
        ∈ (Summarizer.summarize env s a).2.2) := by
  have hfmt : pyFormat s.prompt_template a.title a.content
      = .ok (x ++ a.title ++ y ++ a.content ++ z) := by
    rw [htpl]
    exact pyFormat_verbatim x y z a.title a.content hx hy hz
  constructor
  · intro hp
    rw [summarize_claude_spec env s a _ hlen hOK hp hfmt]
    cases env (claudeReq s (x ++ a.title ++ y ++ a.content ++ z)) <;> simp
  · intro hp
    rw [summarize_openai_spec env s a _ hlen hOK hp hfmt]
    cases env (openaiReq s (x ++ a.title ++ y ++ a.content ++ z)) <;> simp

/-- The default template's literal text before the title placeholder. -/
def tplHead : String := "请用中文为以下文章生成简洁摘要（3-5句话）：\n标题："

/-- The default template's literal text between the two placeholders. -/
def tplMid : String := "\n内容："

/-- The default template's literal text after the content placeholder. -/
def tplTail : String := "\n\n要求：突出核心观点，帮助读者快速判断是否值得阅读原文。"

theorem C7_prompt_rendered_witness :
    Event.netCall (claudeReq sTest
        (tplHead ++ artLong.title ++ tplMid ++ artLong.content ++ tplTail))
      ∈ (Summarizer.summarize oracleOk sTest artLong).2.2 :=
  (C7_prompt_rendered oracleOk sTest artLong tplHead tplMid tplTail
      (by decide) (by decide) (by rfl) (by decide) (by decide) (by decide)).1 rfl

/-- C8: for every configuration and every sequence of `summarize` /
`summarize_batch` calls on the instance `__init__` builds — which starts
with no client — at most one provider client ever exists: the state always
satisfies the client invariant (the cached client, when present, is the one
the provider configured at construction builds from the stored credentials,
and the configuration never changes), and once a client is cached every
later acquisition returns exactly that cached client, with no state change
and no recreation, across any further calls. -/
theorem C8_client_invariant (config : Config) (calls : List CallStep) :
    (mkSummarizer config)._client = none ∧
    (runCalls (mkSummarizer config) calls).config_fields
      = (mkSummarizer config).config_fields ∧
    ClientOK (runCalls (mkSummarizer config) calls) ∧
    (∀ c : Client, (runCalls (mkSummarizer config) calls)._client = some c →
      (runCalls (mkSummarizer config) calls)._get_claude_client
          = (c, runCalls (mkSummarizer config) calls) ∧
      (runCalls (mkSummarizer config) calls)._get_openai_client
          = (c, runCalls (mkSummarizer config) calls) ∧
      ∀ more : List CallStep,
        (runCalls (runCalls (mkSummarizer config) calls) more)._client = some c) := by
  obtain ⟨h1, h2, h3⟩ := runCalls_state calls (mkSummarizer config)
  refine ⟨rfl, h1, h2 (Or.inl rfl), ?_⟩
  intro c hc
  exact ⟨get_claude_cached _ c hc, get_openai_cached _ c hc,
    fun more => (runCalls_state more _).2.2 c hc⟩

theorem C8_client_invariant_witness :
    (runCalls (runCalls (mkSummarizer cfgTest) [CallStep.single oracleOk artLong])
        [CallStep.single oracleOk artShort])._client
      = some (Client.anthropicClient (some "k")) :=
  ((C8_client_invariant cfgTest [CallStep.single oracleOk artLong]).2.2.2
      (Client.anthropicClient (some "k")) (by rfl)).2.2 [CallStep.single oracleOk artShort]

/-- C9: the module never mutates an article — the embedding passes articles
by value, matching a source that only reads `article.title` and
`article.content` — and `summarize_batch` returns each input article itself
in its result pairs: the first components of the returned pairs are exactly
the processed input prefix, unchanged and in order. -/
theorem C9_articles_unchanged (env : Oracle) (s : Summarizer) (articles : List Article)
    (n : Int) (hOK : ClientOK s) (hWF : templateWF s.prompt_template = true) :
    (Summarizer.summarize_batch env s articles n).1
      = Except.ok ((pySliceTo articles n).map
          fun a => (a, okValue (Summarizer.summarize env s a).1)) ∧
    ((pySliceTo articles n).map
        fun a => (a, okValue (Summarizer.summarize env s a).1)).map Prod.fst
      = pySliceTo articles n := by
  refine ⟨?_, by rw [List.map_map]; exact List.map_id (pySliceTo articles n)⟩
  have h := (batchLoop_spec env (min ((articles.length : Int)) n)
    (pySliceTo articles n) s 0 hOK hWF).1
  unfold Summarizer.summarize_batch
  rw [h]

theorem C9_articles_unchanged_witness :
    (Summarizer.summarize_batch oracleOk sTest [artShort, artEmpty] 10).1
      = Except.ok ((pySliceTo [artShort, artEmpty] 10).map
          fun a => (a, okValue (Summarizer.summarize oracleOk sTest a).1)) ∧
    ((pySliceTo [artShort, artEmpty] 10).map
        fun a => (a, okValue (Summarizer.summarize oracleOk sTest a).1)).map Prod.fst
      = pySliceTo [artShort, artEmpty] 10 :=
  C9_articles_unchanged oracleOk sTest [artShort, artEmpty] 10 (by decide) (by decide)

/-- C10: the short-circuit check takes precedence over provider dispatch —
for content shorter than 100 characters `summarize` returns the content or
placeholder with no warning, no network call and no state change (so the
cached client field stays as it was, `None` if nothing was created), for
every provider value and credential configuration; and the
unknown-provider branch likewise leaves the whole state, hence the client
field, unchanged. -/
theorem C10_short_circuit_frame (env : Oracle) (s : Summarizer) (a : Article) :
    (a.content.length < 100 →
      Summarizer.summarize env s a
        = (Except.ok (some (if a.content = "" then "暂无内容摘要" else a.content)), s, [])) ∧
    (s.provider ≠ "claude" → s.provider ≠ "openai" →
      (Summarizer.summarize env s a).2.1 = s) := by
  constructor
  · exact summarize_short env s a
  · intro hp1 hp2
    rcases summarize_state_cases env s a with hs | ⟨hp, _⟩ | ⟨hp, _⟩
    · exact hs
    · exact absurd hp hp1
    · exact absurd hp hp2

theorem C10_short_circuit_frame_witness :
    Summarizer.summarize oracleOk sMystery artShort
        = (Except.ok (some "hi"), sMystery, []) ∧
    (Summarizer.summarize oracleOk sMystery artLong).2.1 = sMystery := by
  constructor
  · have h := (C10_short_circuit_frame oracleOk sMystery artShort).1 (by decide)
    simpa using h
  · exact (C10_short_circuit_frame oracleOk sMystery artLong).2 (by decide) (by decide)
